/-
Verification of the interview-scheduling subsystem of the Nexus ATS
applicant-tracking application.

The JavaScript sources are shallowly embedded:

* JS `Date` values are epoch milliseconds (`Int`).  The runtime's fixed
  UTC offset is an explicit parameter `tz`, in minutes east of UTC
  (JS `getTimezoneOffset()` returns `-tz`).  DST is not modelled: the
  offset is constant within any one statement.
* A `YYYY-MM-DD` date string is represented by its day count since the
  Unix epoch (`DateStr`): ISO date strings are in bijection with day
  counts, and `new Date("YYYY-MM-DD")` yields UTC midnight of that day.
  An `HH:MM` string is represented by its two numeric fields (`TimeStr`).
* The outcomes of the external regex engines and of `ObjectId.isValid`
  on raw inputs are part of the input model (`RawDate`, `RawTime`,
  `RawLink` classify a raw field as missing / regex-failing / parsed),
  except for plain id strings, where `ObjectId.isValid` is modelled by
  the 24-hex-character canonical string form.
* The MongoDB `interviews` collection is a list of documents; queries
  are list filters, `findOneAndUpdate` updates the first match.
* `async` plays no role: each operation is one pure function from the
  store to the store plus an `Except` result, mirroring its awaited
  effects in order.
-/
import Mathlib

namespace NexusATS

/-! ## JS Date model -/

/-- Epoch milliseconds, the value space of JS `Date`. -/
abbrev Millis := Int

def minuteMs : Int := 60000
def hourMs : Int := 3600000
def dayMs : Int := 86400000

/-- A `YYYY-MM-DD` date string, represented by its day count since the
Unix epoch (ISO date strings are in bijection with day counts). -/
structure DateStr where
  days : Int
deriving DecidableEq, Repr

/-- An `HH:MM` time string, represented by its numeric fields.  The
source's `TIME_REGEX` guarantees `hh ≤ 23` and `mm ≤ 59` for strings it
accepts; theorems carry those bounds as hypotheses where needed. -/
structure TimeStr where
  hh : Nat
  mm : Nat
deriving DecidableEq, Repr

/-- UTC instant of the local midnight preceding (or at) instant `e`,
i.e. the effect of JS `setHours(0,0,0,0)` in a runtime whose offset is
`tz` minutes east of UTC. -/
def localMidnight (tz e : Int) : Int :=
  ((e + tz * minuteMs) / dayMs) * dayMs - tz * minuteMs

/-- JS `d.setHours(h, m, 0, 0)`: local midnight of `e` plus the wall
clock `h:m`. -/
def setHoursLocal (tz e : Int) (h m : Nat) : Int :=
  localMidnight tz e + (h : Int) * hourMs + (m : Int) * minuteMs

/-- JS `new Date("<date>T<time>:00")`: a date-time string without a zone
suffix is interpreted in local time. -/
def parseLocalDateTime (tz : Int) (d : DateStr) (t : TimeStr) : Int :=
  d.days * dayMs + (t.hh : Int) * hourMs + (t.mm : Int) * minuteMs - tz * minuteMs

/-- JS `d.toISOString().split('T')[0]`: the UTC calendar day of `d`. -/
def formatDatePart (e : Int) : DateStr :=
  ⟨e / dayMs⟩

/-- JS `d.toTimeString().slice(0, 5)`: the local wall-clock `HH:MM`. -/
def formatTimePart (tz e : Int) : TimeStr :=
  let lm := ((e + tz * minuteMs) / minuteMs) % 1440
  ⟨(lm / 60).toNat, (lm % 60).toNat⟩

/-! ## Data model (interview-models.js) -/

/-- `INTERVIEW_TYPES` values. -/
def INTERVIEW_TYPES : List String := ["screening", "technical", "cultural", "final"]

/-- `INTERVIEW_STATUS` values. -/
def INTERVIEW_STATUS : List String := ["scheduled", "completed", "cancelled", "rescheduled"]

/-- `MEETING_TYPES` values. -/
def MEETING_TYPES : List String := ["video", "phone", "in-person"]

/-- `DEFAULT_DURATIONS` per interview type, in minutes. -/
def DEFAULT_DURATIONS : String → Option Int
  | "screening" => some 30
  | "technical" => some 60
  | "cultural" => some 45
  | "final" => some 90
  | _ => none

/-- `meetingDetails` sub-document. -/
structure MeetingDetails where
  type : String
  link : Option String
  location : Option String
deriving DecidableEq, Repr

/-- `metadata` sub-document. -/
structure Metadata where
  createdAt : Int
  updatedAt : Int
  createdBy : Option String
  isActive : Bool
  deletedAt : Option Int
  deletedBy : Option (Option String)
deriving DecidableEq, Repr

/-- A stored interview document. -/
structure Interview where
  _id : String
  candidateId : Option String
  candidateName : Option String
  jobId : Option String
  jobTitle : Option String
  scheduledDate : Int
  duration : Int
  type : String
  interviewers : List String
  meetingDetails : MeetingDetails
  notes : String
  status : String
  metadata : Metadata
deriving DecidableEq, Repr

/-- The `interviews` collection. -/
abbrev Store := List Interview

/-! ## Conflict detection (interview-db.js, `hasScheduleConflict`) -/

/-- The MongoDB query predicate of `hasScheduleConflict`: candidate
match, `scheduledDate` in the closed ±30-minute window, status in
`{scheduled, rescheduled}`, `metadata.isActive = true`, and `_id ≠
excludeId` when an exclude id was passed. -/
def conflictQueryPred (candidateId : String) (scheduledDate : Int)
    (excludeId : Option String) (iv : Interview) : Bool :=
  let startTime := scheduledDate - 30 * minuteMs
  let endTime := scheduledDate + 30 * minuteMs
  iv.candidateId == some candidateId &&
  decide (startTime ≤ iv.scheduledDate) && decide (iv.scheduledDate ≤ endTime) &&
  (iv.status == "scheduled" || iv.status == "rescheduled") &&
  iv.metadata.isActive &&
  (match excludeId with
   | none => true
   | some e => !(iv._id == e))

/-- `hasScheduleConflict(candidateId, scheduledDate, excludeId)`:
`countDocuments` of the query is non-zero. -/
def hasScheduleConflict (store : Store) (candidateId : String)
    (scheduledDate : Int) (excludeId : Option String) : Bool :=
  (store.filter (conflictQueryPred candidateId scheduledDate excludeId)).length > 0

/-! ## Raw input model (the argument of the validation pipeline)

String-valued fields are `Option String` (`none` = absent, i.e. JS
`undefined`/`null`); JS truthiness of such a field is `jsTruthy`.  The
`date`, `time` and `meetingLink` fields additionally record the outcome
of the source's regexes and of `new Date(...)` parsing. -/

/-- Kernel-computable `trim`: drop leading and trailing whitespace
(the reference implementation of `String.trim` over the char list). -/
def jsTrim (s : String) : String :=
  ⟨((s.data.dropWhile Char.isWhitespace).reverse.dropWhile Char.isWhitespace).reverse⟩

/-- Kernel-computable `toLowerCase()`. -/
def jsToLower (s : String) : String :=
  ⟨s.data.map Char.toLower⟩

/-- Kernel-computable `toUpperCase()`. -/
def jsToUpper (s : String) : String :=
  ⟨s.data.map Char.toUpper⟩

/-- Kernel-computable `split(c)` on a single character. -/
def splitOnChar (c : Char) : List Char → List Char → List (List Char)
  | [], acc => [acc.reverse]
  | x :: rest, acc =>
    if x == c then acc.reverse :: splitOnChar c rest []
    else splitOnChar c rest (x :: acc)

/-- JS truthiness of an optional string: absent and `""` are falsy. -/
def jsTruthy : Option String → Bool
  | none => false
  | some s => !(s == "")

/-- `ObjectId.isValid` on a string: the canonical 24-hex-character form
(the driver also accepts 12-byte buffers, which cannot arise from the
JSON route inputs modelled here). -/
def isValidObjectId (s : String) : Bool :=
  s.length == 24 &&
  s.data.all (fun c => c.isDigit || ('a' ≤ c && c ≤ 'f') || ('A' ≤ c && c ≤ 'F'))

/-- A raw `date` field: absent/falsy, failing `DATE_REGEX`, passing the
regex but unparseable (`new Date(s)` is `Invalid Date`), or parsing to
the UTC midnight of day `d`. -/
inductive RawDate
  | missing
  | malformed (s : String)
  | invalid (s : String)
  | ok (d : DateStr)
deriving DecidableEq, Repr

/-- A raw `time` field: absent/falsy, failing `TIME_REGEX`, or matching
it with numeric fields `t` (the regex forces `hh ≤ 23`, `mm ≤ 59`). -/
inductive RawTime
  | missing
  | malformed (s : String)
  | ok (t : TimeStr)
deriving DecidableEq, Repr

/-- A raw `meetingLink` field: absent/falsy, matching `URL_REGEX` after
trimming, or failing it. -/
inductive RawLink
  | missing
  | url (s : String)
  | nonUrl (s : String)
deriving DecidableEq, Repr

/-- The raw interview input record (route body shape). -/
structure RawInput where
  candidateId : Option String := none
  candidateName : Option String := none
  jobId : Option String := none
  jobTitle : Option String := none
  type : Option String := none
  date : RawDate := .missing
  time : RawTime := .missing
  duration : Option Int := none
  interviewers : Option (List String) := none
  meetingType : Option String := none
  meetingLink : RawLink := .missing
  location : Option String := none
  notes : Option String := none
  status : Option String := none
  createdBy : Option String := none
deriving DecidableEq, Repr

/-- `RawDate` truthiness (a present string field is truthy). -/
def RawDate.truthy : RawDate → Bool
  | .missing => false
  | _ => true

/-- `RawTime` truthiness. -/
def RawTime.truthy : RawTime → Bool
  | .missing => false
  | _ => true

/-! ## Validation pipeline (interview-validation.js) -/

/-- One `(field, message)` entry of a validation `errors` array. -/
structure FieldError where
  field : String
  message : String
deriving DecidableEq, Repr

/-- The second constructor argument of `ValidationError`: absent, a
single field name (`validateInterviewStatus`), or an errors array
(every other facet). -/
inductive VPayload
  | noField
  | fieldName (f : String)
  | fields (errs : List FieldError)
deriving DecidableEq, Repr

/-- The `ValidationError` thrown by the validation pipeline. -/
structure ValidationError where
  message : String
  payload : VPayload
deriving DecidableEq, Repr

/-- The `errors` array accumulated by `validateInterviewBasicInfo`. -/
def basicInfoErrors (d : RawInput) : List FieldError :=
  (if !jsTruthy d.candidateId then
    [⟨"candidateId", "Candidate ID is required"⟩]
  else if !isValidObjectId (d.candidateId.getD "") then
    [⟨"candidateId", "Candidate ID must be a valid ObjectId"⟩]
  else []) ++
  (match d.candidateName with
   | none => [⟨"candidateName", "Candidate name is required and must be a string"⟩]
   | some s =>
     if s == "" then [⟨"candidateName", "Candidate name is required and must be a string"⟩]
     else if (jsTrim s).length < 1 then [⟨"candidateName", "Candidate name cannot be empty"⟩]
     else if (jsTrim s).length > 100 then [⟨"candidateName", "Candidate name cannot exceed 100 characters"⟩]
     else []) ++
  (if !jsTruthy d.jobId then
    [⟨"jobId", "Job ID is required"⟩]
  else if !isValidObjectId (d.jobId.getD "") then
    [⟨"jobId", "Job ID must be a valid ObjectId"⟩]
  else []) ++
  (match d.jobTitle with
   | none => [⟨"jobTitle", "Job title is required and must be a string"⟩]
   | some s =>
     if s == "" then [⟨"jobTitle", "Job title is required and must be a string"⟩]
     else if (jsTrim s).length < 1 then [⟨"jobTitle", "Job title cannot be empty"⟩]
     else if (jsTrim s).length > 100 then [⟨"jobTitle", "Job title cannot exceed 100 characters"⟩]
     else []) ++
  (if !jsTruthy d.type then
    [⟨"type", "Interview type is required"⟩]
  else if !(INTERVIEW_TYPES.contains (d.type.getD "")) then
    [⟨"type", "Interview type must be one of: screening, technical, cultural, final"⟩]
  else [])

/-- `validateInterviewBasicInfo`: throws the accumulated errors array
when non-empty. -/
def validateInterviewBasicInfo (d : RawInput) : Except ValidationError Unit :=
  let errors := basicInfoErrors d
  if errors.isEmpty then .ok ()
  else .error ⟨"Interview basic information validation failed", .fields errors⟩

/-- The `errors` array accumulated by `validateDateTimeConstraints`.
`now` is the validation-time clock; `yearLen` is the day distance to
the same calendar date next year (`setFullYear(+1)`): 365 or 366. -/
def dateTimeErrors (tz now yearLen : Int) (date : RawDate) (time : RawTime) :
    List FieldError :=
  (match date with
   | .missing => [⟨"date", "Date is required and must be a string"⟩]
   | .malformed _ => [⟨"date", "Date must be in YYYY-MM-DD format"⟩]
   | .invalid _ => [⟨"date", "Date must be a valid date"⟩]
   | .ok ds =>
     let dateObj := localMidnight tz (ds.days * dayMs)
     let today := localMidnight tz now
     (if dateObj < today then
       [⟨"date", "Interview date cannot be in the past"⟩]
      else []) ++
     (let oneYearFromNow := localMidnight tz (now + yearLen * dayMs)
      if dateObj > oneYearFromNow then
        [⟨"date", "Interview date cannot be more than one year in the future"⟩]
      else [])) ++
  (match time with
   | .missing => [⟨"time", "Time is required and must be a string"⟩]
   | .malformed _ => [⟨"time", "Time must be in HH:MM format (24-hour)"⟩]
   | .ok t =>
     if t.hh < 8 || t.hh > 18 || (t.hh == 18 && t.mm > 0) then
       [⟨"time", "Interview time must be between 08:00 and 18:00"⟩]
     else []) ++
  (match date, time with
   | .ok ds, .ok t =>
     if setHoursLocal tz (ds.days * dayMs) t.hh t.mm ≤ now then
       [⟨"datetime", "Interview date and time must be in the future"⟩]
     else []
   | _, _ => [])  -- regex-failing fields skip the check; `Invalid Date` compares false

/-- `validateDateTimeConstraints`. -/
def validateDateTimeConstraints (tz now yearLen : Int) (date : RawDate)
    (time : RawTime) : Except ValidationError Unit :=
  let errors := dateTimeErrors tz now yearLen date time
  if errors.isEmpty then .ok ()
  else .error ⟨"Date and time validation failed", .fields errors⟩

/-- The `errors` array of `validateInterviewDuration` (the input is a
number after sanitization, so the typeof/integer checks pass). -/
def durationErrors (duration : Option Int) : List FieldError :=
  match duration with
  | none => []
  | some n =>
    if n < 15 then [⟨"duration", "Interview duration must be at least 15 minutes"⟩]
    else if n > 480 then [⟨"duration", "Interview duration cannot exceed 480 minutes (8 hours)"⟩]
    else if n % 15 != 0 then [⟨"duration", "Interview duration must be in 15-minute increments"⟩]
    else []

/-- `validateInterviewDuration`. -/
def validateInterviewDuration (duration : Option Int) : Except ValidationError Unit :=
  let errors := durationErrors duration
  if errors.isEmpty then .ok ()
  else .error ⟨"Duration validation failed", .fields errors⟩

/-- The `errors` array of `validateInterviewers` (entries are strings). -/
def interviewersErrors (interviewers : Option (List String)) : List FieldError :=
  match interviewers with
  | none => []
  | some xs =>
    (if xs.length > 10 then
      [⟨"interviewers", "Cannot have more than 10 interviewers"⟩]
     else []) ++
    (xs.enum.flatMap (fun p =>
      let fieldName := "interviewers[" ++ toString p.1 ++ "]"
      if (jsTrim p.2).length < 1 then [⟨fieldName, "Interviewer name cannot be empty"⟩]
      else if (jsTrim p.2).length > 100 then [⟨fieldName, "Interviewer name cannot exceed 100 characters"⟩]
      else [])) ++
    (if (xs.map (fun name => jsToLower (jsTrim name))).dedup.length != xs.length then
      [⟨"interviewers", "Interviewer names must be unique"⟩]
     else [])

/-- `validateInterviewers`. -/
def validateInterviewers (interviewers : Option (List String)) :
    Except ValidationError Unit :=
  let errors := interviewersErrors interviewers
  if errors.isEmpty then .ok ()
  else .error ⟨"Interviewers validation failed", .fields errors⟩

/-- The `errors` array of `validateMeetingDetails`, applied to the
`{type, link, location}` object assembled by `validateInterviewData`. -/
def meetingDetailsErrors (meetingType : Option String) (link : RawLink)
    (location : Option String) : List FieldError :=
  (if jsTruthy meetingType && !(MEETING_TYPES.contains (meetingType.getD "")) then
    [⟨"meetingType", "Meeting type must be one of: video, phone, in-person"⟩]
   else []) ++
  (match link with
   | .missing => []
   | .url s =>
     if (jsTrim s).length > 500 then [⟨"meetingLink", "Meeting link cannot exceed 500 characters"⟩]
     else []
   | .nonUrl s =>
     if (jsTrim s).length > 500 then [⟨"meetingLink", "Meeting link cannot exceed 500 characters"⟩]
     else [⟨"meetingLink", "Meeting link must be a valid URL"⟩]) ++
  (match location with
   | none => []
   | some s =>
     if s == "" then []
     else if (jsTrim s).length > 200 then [⟨"location", "Location cannot exceed 200 characters"⟩]
     else []) ++
  (if meetingType == some "in-person" && !jsTruthy location then
    [⟨"location", "In-person interviews require a location"⟩]
   else [])

/-- `validateMeetingDetails`. -/
def validateMeetingDetails (meetingType : Option String) (link : RawLink)
    (location : Option String) : Except ValidationError Unit :=
  let errors := meetingDetailsErrors meetingType link location
  if errors.isEmpty then .ok ()
  else .error ⟨"Meeting details validation failed", .fields errors⟩

/-- The `errors` array of `validateInterviewNotes` (`none` covers both
`undefined` and `null`). -/
def notesErrors (notes : Option String) : List FieldError :=
  match notes with
  | none => []
  | some s =>
    if s.length > 2000 then [⟨"notes", "Notes cannot exceed 2000 characters"⟩]
    else []

/-- `validateInterviewNotes`. -/
def validateInterviewNotes (notes : Option String) : Except ValidationError Unit :=
  let errors := notesErrors notes
  if errors.isEmpty then .ok ()
  else .error ⟨"Notes validation failed", .fields errors⟩

/-- `validateInterviewStatus` (the validation-pipeline one): throws a
`ValidationError` whose second argument is the plain field name. -/
def validateInterviewStatusV (status : Option String) : Except ValidationError Unit :=
  if jsTruthy status && !(INTERVIEW_STATUS.contains (status.getD "")) then
    .error ⟨"Interview status must be one of: scheduled, completed, cancelled, rescheduled",
            .fieldName "status"⟩
  else .ok ()

/-- `validateInterviewData`: runs the facet validators in source order;
each facet throws its own aggregated error, so the first failing facet
short-circuits the rest. -/
def validateInterviewData (tz now yearLen : Int) (d : RawInput) :
    Except ValidationError Unit := do
  validateInterviewBasicInfo d
  validateDateTimeConstraints tz now yearLen d.date d.time
  validateInterviewDuration d.duration
  validateInterviewers d.interviewers
  validateMeetingDetails d.meetingType d.meetingLink d.location
  validateInterviewNotes d.notes
  validateInterviewStatusV d.status

/-! ## Sanitization (interview-validation.js) -/

/-- Collapse every maximal run of whitespace to a single space
(JS `replace(/\s+/g, ' ')`). -/
def collapseWhitespace (s : String) : String :=
  ⟨go s.data⟩
where
  go : List Char → List Char
  | [] => []
  | [c] => [if c.isWhitespace then ' ' else c]
  | c :: d :: rest =>
    if c.isWhitespace && d.isWhitespace then go (d :: rest)
    else (if c.isWhitespace then ' ' else c) :: go (d :: rest)

/-- `sanitizeString`: trim, then collapse inner whitespace (falsy input
becomes `""`). -/
def sanitizeString (input : Option String) : String :=
  match input with
  | none => ""
  | some s => if s == "" then "" else collapseWhitespace (jsTrim s)

/-- Default duration fallback `DEFAULT_DURATIONS[type] || 60`. -/
def defaultDurationFor (type : Option String) : Int :=
  (type.bind DEFAULT_DURATIONS).getD 60

/-- `sanitizeInterviewInput`.  Trimming a `date`/`time`/`meetingLink`
string does not change its regex classification (the service always
receives them already trimmed from JSON), so those fields pass through.
`parseInt` of a number is the number itself; `parseInt(x) || default`
falls back on `0` exactly as `||` does. -/
def sanitizeInterviewInput (d : RawInput) : RawInput :=
  { d with
    candidateName := if jsTruthy d.candidateName then some (sanitizeString d.candidateName) else d.candidateName
    jobTitle := if jsTruthy d.jobTitle then some (sanitizeString d.jobTitle) else d.jobTitle
    location := if jsTruthy d.location then some (sanitizeString d.location) else d.location
    notes := if jsTruthy d.notes then some (sanitizeString d.notes) else d.notes
    interviewers := d.interviewers.map (fun xs =>
      (xs.map (fun name => sanitizeString (some name))).filter (fun s => !(s == "")))
    duration := d.duration.map (fun n => if n == 0 then defaultDurationFor d.type else n) }

/-! ## Document builder (interview-models.js) -/

/-- `combineDateTime(dateString, timeString)`: `new Date(dateString)`
(UTC midnight) followed by local `setHours(hours, minutes, 0, 0)`;
throws on missing or unparseable inputs and on out-of-range time
fields. -/
def combineDateTime (tz : Int) (date : RawDate) (time : RawTime) :
    Except String Int :=
  match date, time with
  | .missing, _ => .error "Both date and time are required"
  | _, .missing => .error "Both date and time are required"
  | .malformed _, _ => .error "Invalid date format"
  | .invalid _, _ => .error "Invalid date format"
  | .ok _, .malformed _ => .error "Invalid time format"
  | .ok ds, .ok t =>
    if t.hh > 23 || t.mm > 59 then .error "Invalid time format"
    else .ok (setHoursLocal tz (ds.days * dayMs) t.hh t.mm)

/-- JS `x?.trim()` on an optional string. -/
def jsOptTrim : Option String → Option String
  | none => none
  | some s => some (jsTrim s)

/-- JS `x?.trim() || null` on an optional string. -/
def jsTrimOrNull : Option String → Option String
  | none => none
  | some s => if jsTrim s == "" then none else some (jsTrim s)

/-- `createInterviewDocument(interviewData)`.  `newId` is the id the
store assigns at insertion; `now` is the creation clock. -/
def createInterviewDocument (tz now : Int) (newId : String) (d : RawInput) :
    Except String Interview := do
  let scheduledDate ← combineDateTime tz d.date d.time
  .ok {
    _id := newId
    candidateId :=
      match d.candidateId with
      | some cid => if cid != "" && isValidObjectId cid then some cid else none
      | none => none
    candidateName := jsOptTrim d.candidateName
    jobId :=
      match d.jobId with
      | some jid => if jid != "" && isValidObjectId jid then some jid else none
      | none => none
    jobTitle := jsOptTrim d.jobTitle
    scheduledDate := scheduledDate
    duration :=
      match d.duration with
      | some n => if n != 0 then n else defaultDurationFor d.type
      | none => defaultDurationFor d.type
    type := match d.type with
      | some ty => if ty != "" then ty else "screening"
      | none => "screening"
    interviewers :=
      match d.interviewers with
      | some xs => (xs.map jsTrim).filter (fun s => !(s == ""))
      | none => []
    meetingDetails := {
      type := match d.meetingType with
        | some mt => if mt != "" then mt else "video"
        | none => "video"
      link := match d.meetingLink with
        | .missing => none
        | .url s => if jsTrim s == "" then none else some (jsTrim s)
        | .nonUrl s => if jsTrim s == "" then none else some (jsTrim s)
      location := jsTrimOrNull d.location }
    notes := (jsTrimOrNull d.notes).getD ""
    status := match d.status with
      | some st => if st != "" then st else "scheduled"
      | none => "scheduled"
    metadata := {
      createdAt := now
      updatedAt := now
      createdBy :=
        match d.createdBy with
        | some u => if u != "" && isValidObjectId u then some u else none
        | none => none
      isActive := true
      deletedAt := none
      deletedBy := none } }

/-! ## Enrichment and display (interview-service.js, interview-models.js) -/

/-- External candidate record (`personalInfo` and `pipelineInfo`
flattened to the fields the scheduling core reads). -/
structure Candidate where
  firstName : String
  lastName : String
  email : String
  currentStage : String
deriving DecidableEq, Repr

/-- External job record (fields the scheduling core reads). -/
structure Job where
  title : String
  department : String
  status : String
deriving DecidableEq, Repr

/-- `currentCandidateInfo` overlay. -/
structure CandidateInfo where
  name : String
  email : String
  currentStage : String
deriving DecidableEq, Repr

/-- `currentJobInfo` overlay. -/
structure JobInfo where
  title : String
  department : String
  status : String
deriving DecidableEq, Repr

/-- The result of `_enrichInterviewData`: the stored document plus the
enrichment fields.  The outer `Option` is JS field presence (`none` =
the property was never assigned); the inner `Option` is `null`. -/
structure EnrichedInterview where
  base : Interview
  currentCandidateInfo : Option (Option CandidateInfo) := none
  candidateDeleted : Option Bool := none
  currentJobInfo : Option (Option JobInfo) := none
  jobDeleted : Option Bool := none
deriving DecidableEq, Repr

/-- `_enrichInterviewData(interview)`: best-effort overlay of the
current candidate/job records; a null lookup result sets the `*Deleted`
flag and a null info object; the stored fields are never mutated. -/
def enrichInterviewData (lookupCandidate : String → Option Candidate)
    (lookupJob : String → Option Job) (iv : Interview) : EnrichedInterview :=
  let afterCandidate : EnrichedInterview :=
    match iv.candidateId with
    | none => { base := iv }
    | some cid =>
      match lookupCandidate cid with
      | some c =>
        { base := iv
          currentCandidateInfo := some (some
            { name := c.firstName ++ " " ++ c.lastName
              email := c.email
              currentStage := c.currentStage }) }
      | none =>
        { base := iv, currentCandidateInfo := some none, candidateDeleted := some true }
  match iv.jobId with
  | none => afterCandidate
  | some jid =>
    match lookupJob jid with
    | some j =>
      { afterCandidate with
        currentJobInfo := some (some
          { title := j.title, department := j.department, status := j.status }) }
    | none =>
      { afterCandidate with currentJobInfo := some none, jobDeleted := some true }

/-- The display projection built by `formatInterviewForDisplay`: a fresh
object with exactly the listed keys.  The enrichment keys are included
in the type to record their absence (`none`). -/
structure DisplayInterview where
  id : String
  candidateId : Option String
  candidateName : Option String
  jobId : Option String
  jobTitle : Option String
  date : DateStr
  time : TimeStr
  duration : String
  type : String
  interviewers : List String
  meetingDetails : MeetingDetails
  notes : String
  status : String
  createdAt : Int
  updatedAt : Int
  currentCandidateInfo : Option (Option CandidateInfo)
  candidateDeleted : Option Bool
  currentJobInfo : Option (Option JobInfo)
  jobDeleted : Option Bool
deriving DecidableEq, Repr

/-- `formatInterviewForDisplay(interview)`: rebuilds the record from the
stored fields only — the enrichment fields of its argument are not
copied, so they are absent from the result. -/
def formatInterviewForDisplay (tz : Int) (e : EnrichedInterview) : DisplayInterview :=
  { id := e.base._id
    candidateId := e.base.candidateId
    candidateName := e.base.candidateName
    jobId := e.base.jobId
    jobTitle := e.base.jobTitle
    date := formatDatePart e.base.scheduledDate
    time := formatTimePart tz e.base.scheduledDate
    duration := toString e.base.duration ++ " minutes"
    type := e.base.type
    interviewers := e.base.interviewers
    meetingDetails := e.base.meetingDetails
    notes := e.base.notes
    status := e.base.status
    createdAt := e.base.metadata.createdAt
    updatedAt := e.base.metadata.updatedAt
    currentCandidateInfo := none
    candidateDeleted := none
    currentJobInfo := none
    jobDeleted := none }

/-- `generateInterviewerInitials(interviewers)`: per name, split on
single spaces, drop empty parts; no parts → `""`, one part → its first
character uppercased, otherwise first character of first and last
parts, uppercased. -/
def generateInterviewerInitials (interviewers : List String) : List String :=
  interviewers.map (fun name =>
    let parts := (splitOnChar ' ' (jsTrim name).data []).filter (fun p => !(p == []))
    match parts with
    | [] => ""
    | p :: rest =>
      match rest.getLast? with
      | none => jsToUpper (String.mk [p.headD 'A'])
      | some q => jsToUpper (String.mk [p.headD 'A', q.headD 'A']))

/-- `[...new Set(xs)]`: first-occurrence deduplication. -/
def jsSetDedup (xs : List String) : List String :=
  go xs []
where
  go : List String → List String → List String
  | [], _ => []
  | x :: rest, seen =>
    if seen.contains x then go rest seen
    else x :: go rest (x :: seen)

/-! ## Scheduling service (interview-service.js)

Each operation takes the external lookups, the store and its arguments
and returns the store paired with an `Except` result; an error leaves
the store unchanged (nothing was written before the throw). -/

/-- `InterviewServiceError` (message, machine code, HTTP status hint). -/
structure InterviewServiceError where
  message : String
  code : String
  statusCode : Int
deriving DecidableEq, Repr

/-- The schedule-conflict error thrown by create and update. -/
def scheduleConflictError : InterviewServiceError :=
  ⟨"Schedule conflict: Candidate already has an interview scheduled within 30 minutes of this time",
   "SCHEDULE_CONFLICT", 409⟩

/-- The referential-integrity error thrown by `_validateReferences`. -/
def invalidReferencesError : InterviewServiceError :=
  ⟨"Referential integrity validation failed", "INVALID_REFERENCES", 400⟩

/-- The not-found error. -/
def notFoundError : InterviewServiceError :=
  ⟨"Interview not found", "NOT_FOUND", 404⟩

/-- The invalid-id error. -/
def invalidIdError : InterviewServiceError :=
  ⟨"Invalid interview ID format", "INVALID_ID", 400⟩

/-- The local `errors` array of `_validateReferences`: one entry per
missing reference, candidate first; both lookups always run. -/
def referenceErrors (lookupCandidate : String → Option Candidate)
    (lookupJob : String → Option Job) (candidateId jobId : String) :
    List FieldError :=
  (match lookupCandidate candidateId with
   | some _ => []
   | none => [⟨"candidateId", "Referenced candidate does not exist"⟩]) ++
  (match lookupJob jobId with
   | some _ => []
   | none => [⟨"jobId", "Referenced job does not exist"⟩])

/-- `_validateReferences(candidateId, jobId)`: throws
`invalidReferencesError` when the errors array is non-empty; the array
itself is not attached to the thrown error. -/
def validateReferences (lookupCandidate : String → Option Candidate)
    (lookupJob : String → Option Job) (candidateId jobId : String) :
    Except InterviewServiceError (Option Candidate × Option Job) :=
  if (referenceErrors lookupCandidate lookupJob candidateId jobId).isEmpty then
    .ok (lookupCandidate candidateId, lookupJob jobId)
  else .error invalidReferencesError

/-- The string the service passes to the lookups (`sanitizedData.candidateId`). -/
def idString (x : Option String) : String := x.getD ""

/-- `createInterview(interviewData, userId)`: sanitize → validate →
resolve references → default names → conflict-check → insert → read
back → enrich → format.  `newId` is the id the store assigns. -/
def createInterview (tz now yearLen : Int)
    (lookupCandidate : String → Option Candidate) (lookupJob : String → Option Job)
    (newId : String) (store : Store) (interviewData : RawInput)
    (userId : Option String) : Store × Except InterviewServiceError DisplayInterview :=
  let sanitizedData := sanitizeInterviewInput interviewData
  match validateInterviewData tz now yearLen sanitizedData with
  | .error e => (store, .error ⟨e.message, "VALIDATION_ERROR", 400⟩)
  | .ok _ =>
    match validateReferences lookupCandidate lookupJob
        (idString sanitizedData.candidateId) (idString sanitizedData.jobId) with
    | .error e => (store, .error e)
    | .ok (candidate, job) =>
      let sanitizedData :=
        { sanitizedData with
          candidateName :=
            if !jsTruthy sanitizedData.candidateName then
              match candidate with
              | some c => some (c.firstName ++ " " ++ c.lastName)
              | none => sanitizedData.candidateName
            else sanitizedData.candidateName
          jobTitle :=
            if !jsTruthy sanitizedData.jobTitle then
              match job with
              | some j => some j.title
              | none => sanitizedData.jobTitle
            else sanitizedData.jobTitle }
      let conflict :=
        if jsTruthy sanitizedData.candidateId &&
            sanitizedData.date.truthy && sanitizedData.time.truthy then
          match sanitizedData.date, sanitizedData.time with
          | .ok ds, .ok t =>
            hasScheduleConflict store (idString sanitizedData.candidateId)
              (parseLocalDateTime tz ds t) none
          | _, _ => false  -- an unparseable pair yields NaN, which matches nothing
        else false
      if conflict then (store, .error scheduleConflictError)
      else
        let sanitizedData := { sanitizedData with createdBy := userId }
        match createInterviewDocument tz now newId sanitizedData with
        | .error _ => (store, .error ⟨"Failed to create interview", "CREATE_ERROR", 500⟩)
        | .ok interviewDoc =>
          let newStore := store ++ [interviewDoc]
          let enriched := enrichInterviewData lookupCandidate lookupJob interviewDoc
          (newStore, .ok (formatInterviewForDisplay tz enriched))

/-- `getInterviewById(interviewId)`: id-format gate, then `findOne` on
`{_id, metadata.isActive: true}`; `null` (here `none`) when absent or
soft-deleted; otherwise enrich and format. -/
def getInterviewById (tz : Int)
    (lookupCandidate : String → Option Candidate) (lookupJob : String → Option Job)
    (store : Store) (interviewId : String) :
    Except InterviewServiceError (Option DisplayInterview) :=
  if !isValidObjectId interviewId then .error invalidIdError
  else
    match store.find? (fun iv => iv._id == interviewId && iv.metadata.isActive) with
    | none => .ok none
    | some interview =>
      .ok (some (formatInterviewForDisplay tz
        (enrichInterviewData lookupCandidate lookupJob interview)))

/-- The validated filters of `getAllInterviews` (`validateInterviewFilters`
output): all optional, the date bounds already parsed. -/
structure InterviewFilters where
  status : Option String := none
  type : Option String := none
  candidateId : Option String := none
  jobId : Option String := none
  startDate : Option DateStr := none
  endDate : Option DateStr := none
deriving DecidableEq, Repr

/-- The MongoDB query predicate `getAllInterviews` builds: always
`metadata.isActive = true`, plus the present filters; the `endDate`
bound is pushed to the end of its day (UTC midnight of the parsed
date-only string plus `23:59:59.999` local). -/
def listQueryPred (tz : Int) (f : InterviewFilters) (iv : Interview) : Bool :=
  iv.metadata.isActive &&
  (match f.status with | none => true | some s => iv.status == s) &&
  (match f.type with | none => true | some t => iv.type == t) &&
  (match f.candidateId with | none => true | some c => iv.candidateId == some c) &&
  (match f.jobId with | none => true | some j => iv.jobId == some j) &&
  (match f.startDate with
   | none => true
   | some d => decide (d.days * dayMs ≤ iv.scheduledDate)) &&
  (match f.endDate with
   | none => true
   | some d =>
     decide (iv.scheduledDate ≤ setHoursLocal tz (d.days * dayMs) 23 59 + 59999))

/-- `findOneAndUpdate`: rewrite the first document matching `p`. -/
def updateFirst (p : Interview → Bool) (f : Interview → Interview) : Store → Store
  | [] => []
  | iv :: rest => if p iv then f iv :: rest else iv :: updateFirst p f rest

/-- Stable insertion by `scheduledDate` (helper of `sortBySchedule`). -/
def insertBySchedule (x : Interview) : List Interview → List Interview
  | [] => [x]
  | y :: rest =>
    if x.scheduledDate < y.scheduledDate then x :: y :: rest
    else y :: insertBySchedule x rest

/-- `sort({scheduledDate: 1})`: stable ascending sort by
`scheduledDate`, as an insertion sort. -/
def sortBySchedule : List Interview → List Interview
  | [] => []
  | x :: rest => insertBySchedule x (sortBySchedule rest)

/-- The page of documents `getAllInterviews` reads: filter, sort
ascending by `scheduledDate`, skip, limit. -/
def getAllInterviewsDocs (tz : Int) (store : Store) (f : InterviewFilters)
    (skip limit : Nat) : List Interview :=
  ((sortBySchedule (store.filter (listQueryPred tz f))).drop skip).take limit

/-- `deleteInterview(interviewId, userId)`: soft delete via
`findOneAndUpdate` on `{_id, metadata.isActive: true}`; not-found when
no active document matches. -/
def deleteInterview (now : Int) (store : Store) (interviewId : String)
    (userId : Option String) : Store × Except InterviewServiceError Bool :=
  if !isValidObjectId interviewId then (store, .error invalidIdError)
  else
    let isTarget := fun (iv : Interview) => iv._id == interviewId && iv.metadata.isActive
    match store.find? isTarget with
    | none => (store, .error notFoundError)
    | some _ =>
      let newStore := updateFirst isTarget
        (fun iv =>
          { iv with metadata :=
            { iv.metadata with
              isActive := false
              deletedAt := some now
              deletedBy := some userId } }) store
      (newStore, .ok true)

/-- `RawLink` truthiness. -/
def RawLink.truthy : RawLink → Bool
  | .missing => false
  | _ => true

/-- The trimmed string value of a `meetingLink` field (sanitization
trims it before the update applies it). -/
def RawLink.strTrim : RawLink → Option String
  | .missing => none
  | .url s => some (jsTrim s)
  | .nonUrl s => some (jsTrim s)

/-- `new Date(`${newDate}T${newTime}:00`)` over the patch date/time
merged (by `||`) over the existing display fields; `none` is JS
`Invalid Date` (a present but regex-failing field). -/
def mergedScheduleParse (tz : Int) (uDate : RawDate) (uTime : RawTime)
    (exDate : DateStr) (exTime : TimeStr) : Option Int :=
  let d : Option DateStr :=
    if uDate.truthy then
      match uDate with | .ok ds => some ds | _ => none
    else some exDate
  let t : Option TimeStr :=
    if uTime.truthy then
      match uTime with | .ok tt => some tt | _ => none
    else some exTime
  match d, t with
  | some ds, some tt => some (parseLocalDateTime tz ds tt)
  | _, _ => none

/-- The `$set` document `updateInterview` builds, applied to the target:
always refreshes `metadata.updatedAt`; copies the present (`!==
undefined`) updatable fields; sets `scheduledDate` only when both
`date` and `time` are truthy (an unparseable truthy pair would store an
`Invalid Date`; that corner is modelled as leaving the field unchanged
and is avoided by every statement below); merges `meetingDetails`
field-by-field over the existing display values when any of its three
inputs is truthy. -/
def applyUpdateDoc (tz now : Int) (u : RawInput) (ex : DisplayInterview)
    (iv : Interview) : Interview :=
  { iv with
    candidateName := match u.candidateName with | some v => some v | none => iv.candidateName
    jobTitle := match u.jobTitle with | some v => some v | none => iv.jobTitle
    type := match u.type with | some v => v | none => iv.type
    interviewers := match u.interviewers with | some l => l | none => iv.interviewers
    notes := match u.notes with | some v => v | none => iv.notes
    status := match u.status with | some v => v | none => iv.status
    scheduledDate :=
      if u.date.truthy && u.time.truthy then
        match u.date, u.time with
        | .ok ds, .ok t => parseLocalDateTime tz ds t
        | _, _ => iv.scheduledDate
      else iv.scheduledDate
    meetingDetails :=
      if jsTruthy u.meetingType || u.meetingLink.truthy || jsTruthy u.location then
        { type := if jsTruthy u.meetingType then u.meetingType.getD "" else ex.meetingDetails.type
          link := if u.meetingLink.truthy then u.meetingLink.strTrim else ex.meetingDetails.link
          location := if jsTruthy u.location then u.location else ex.meetingDetails.location }
      else iv.meetingDetails
    metadata := { iv.metadata with updatedAt := now } }

/-- `updateInterview(interviewId, updates, userId)`. -/
def updateInterview (tz now : Int)
    (lookupCandidate : String → Option Candidate) (lookupJob : String → Option Job)
    (store : Store) (interviewId : String) (updates : RawInput)
    (_userId : Option String) : Store × Except InterviewServiceError DisplayInterview :=
  if !isValidObjectId interviewId then (store, .error invalidIdError)
  else
    match getInterviewById tz lookupCandidate lookupJob store interviewId with
    | .error e => (store, .error e)
    | .ok none => (store, .error notFoundError)
    | .ok (some existingInterview) =>
      let sanitizedUpdates := sanitizeInterviewInput updates
      let conflict :=
        if (sanitizedUpdates.date.truthy || sanitizedUpdates.time.truthy) &&
            jsTruthy sanitizedUpdates.candidateId then
          match mergedScheduleParse tz sanitizedUpdates.date sanitizedUpdates.time
              existingInterview.date existingInterview.time with
          | some scheduledDate =>
            hasScheduleConflict store (idString sanitizedUpdates.candidateId)
              scheduledDate (some interviewId)
          | none => false  -- Invalid Date is in no window
        else false
      if conflict then (store, .error scheduleConflictError)
      else
        let isTarget := fun (iv : Interview) => iv._id == interviewId && iv.metadata.isActive
        match store.find? isTarget with
        | none => (store, .error ⟨"Failed to update interview", "UPDATE_FAILED", 500⟩)
        | some target =>
          let updated := applyUpdateDoc tz now sanitizedUpdates existingInterview target
          (updateFirst isTarget
            (applyUpdateDoc tz now sanitizedUpdates existingInterview) store,
           .ok (formatInterviewForDisplay tz { base := updated }))

/-- `getInterviewsForDate(date)` (interview-db.js): active interviews
whose `scheduledDate` lies in the local calendar day of `date`
(`00:00:00.000`–`23:59:59.999`), sorted ascending. -/
def getInterviewsForDate (tz : Int) (store : Store) (date : Int) : List Interview :=
  let startOfDay := localMidnight tz date
  let endOfDay := startOfDay + dayMs - 1
  sortBySchedule (store.filter (fun iv =>
    decide (startOfDay ≤ iv.scheduledDate) && decide (iv.scheduledDate ≤ endOfDay) &&
    iv.metadata.isActive))

/-- The result record of `getInterviewStats`; `interviewsByType` is the
histogram object read as a total function (absent key = 0). -/
structure InterviewStats where
  date : DateStr
  totalInterviews : Nat
  interviewerInitials : List String
  interviewsByType : String → Nat
  interviews : List DisplayInterview

/-- `getInterviewStats(date)`: the day's active interviews restricted
to status `scheduled`/`rescheduled`; count, unique-interviewer
initials, and a type histogram keyed by each interview's raw `type`
value. -/
def getInterviewStats (tz : Int) (store : Store) (date : Int) : InterviewStats :=
  let interviews := getInterviewsForDate tz store date
  let todayInterviews := interviews.filter (fun iv =>
    iv.status == "scheduled" || iv.status == "rescheduled")
  let allInterviewers := todayInterviews.flatMap (fun iv => iv.interviewers)
  let uniqueInterviewers := jsSetDedup allInterviewers
  { date := formatDatePart date
    totalInterviews := todayInterviews.length
    interviewerInitials := generateInterviewerInitials uniqueInterviewers
    interviewsByType := fun ty => (todayInterviews.filter (fun iv => iv.type == ty)).length
    interviews := todayInterviews.map (fun iv =>
      formatInterviewForDisplay tz { base := iv }) }

/-! ## Helper lemmas -/

theorem conflictQueryPred_eq_true_iff (cid : String) (t : Int) (excl : Option String)
    (iv : Interview) :
    conflictQueryPred cid t excl iv = true ↔
      iv.candidateId = some cid ∧
      t - 30 * minuteMs ≤ iv.scheduledDate ∧ iv.scheduledDate ≤ t + 30 * minuteMs ∧
      (iv.status = "scheduled" ∨ iv.status = "rescheduled") ∧
      iv.metadata.isActive = true ∧ (∀ e, excl = some e → iv._id ≠ e) := by
  cases excl <;>
    simp only [conflictQueryPred, Bool.and_eq_true, Bool.or_eq_true, decide_eq_true_eq,
      beq_iff_eq, Bool.not_eq_true', beq_eq_false_iff_ne, ne_eq, Option.some.injEq,
      forall_eq, false_implies, implies_true, and_true] <;>
    aesop

theorem hasScheduleConflict_eq_true_iff (store : Store) (cid : String) (t : Int)
    (excl : Option String) :
    hasScheduleConflict store cid t excl = true ↔
      ∃ iv ∈ store, conflictQueryPred cid t excl iv = true := by
  simp only [hasScheduleConflict, gt_iff_lt, decide_eq_true_eq,
    List.length_pos_iff_exists_mem, List.mem_filter]

/-! ## Concrete fixtures used by witnesses and counterexamples -/

/-- A 24-hex candidate id. -/
def cidA : String := "0123456789abcdef01234567"

/-- A 24-hex job id. -/
def jidA : String := "89abcdef0123456789abcdef"

/-- The clock used by concrete instances: UTC noon of epoch day 20000
(2024-10-04). -/
def nowA : Int := 20000 * dayMs + 12 * hourMs

/-- A stored interview at day 20010 (2024-10-14), 10:00 UTC. -/
def docA : Interview where
  _id := "aaaaaaaaaaaaaaaaaaaaaaaa"
  candidateId := some cidA
  candidateName := some "Alice Smith"
  jobId := some jidA
  jobTitle := some "Backend Engineer"
  scheduledDate := parseLocalDateTime 0 ⟨20010⟩ ⟨10, 0⟩
  duration := 60
  type := "technical"
  interviewers := ["John Doe"]
  meetingDetails := { type := "video", link := none, location := none }
  notes := ""
  status := "scheduled"
  metadata := { createdAt := 0, updatedAt := 0, createdBy := none, isActive := true,
                deletedAt := none, deletedBy := none }

/-- A fully valid creation input for day 20010, 10:00. -/
def goodInput : RawInput where
  candidateId := some cidA
  candidateName := some "Alice Smith"
  jobId := some jidA
  jobTitle := some "Backend Engineer"
  type := some "technical"
  date := .ok ⟨20010⟩
  time := .ok ⟨10, 0⟩

/-- A resolvable candidate. -/
def candA : Candidate := ⟨"Alice", "Smith", "alice@example.com", "interview"⟩

/-- A resolvable job. -/
def jobA : Job := ⟨"Backend Engineer", "Engineering", "active"⟩

/-! ## C1: conflict detection -/

/-- C1: `hasScheduleConflict` returns true iff at least one stored
interview for the candidate with `metadata.isActive = true`, status in
`{scheduled, rescheduled}` and an id different from the excluded one
has `scheduledDate` in the closed window `[t - 30 min, t + 30 min]`;
when it returns true, `createInterview` aborts with the
schedule-conflict error (status hint 409) and inserts nothing (the
store is unchanged); and a proposal at least 31 minutes away from every
stored slot of the candidate never conflicts. -/
theorem c1_schedule_conflict_spec :
    (∀ (store : Store) (cid : String) (t : Int) (excl : Option String),
      hasScheduleConflict store cid t excl = true ↔
        ∃ iv ∈ store, iv.candidateId = some cid ∧
          t - 30 * minuteMs ≤ iv.scheduledDate ∧ iv.scheduledDate ≤ t + 30 * minuteMs ∧
          (iv.status = "scheduled" ∨ iv.status = "rescheduled") ∧
          iv.metadata.isActive = true ∧ (∀ e, excl = some e → iv._id ≠ e)) ∧
    (∀ (tz now yearLen : Int) (lookC : String → Option Candidate)
        (lookJ : String → Option Job) (newId : String) (store : Store)
        (input : RawInput) (userId : Option String) (cids : String)
        (ds : DateStr) (t : TimeStr),
      (sanitizeInterviewInput input).candidateId = some cids →
      cids ≠ "" →
      (sanitizeInterviewInput input).date = .ok ds →
      (sanitizeInterviewInput input).time = .ok t →
      validateInterviewData tz now yearLen (sanitizeInterviewInput input) = .ok () →
      (referenceErrors lookC lookJ cids
        (idString (sanitizeInterviewInput input).jobId)).isEmpty = true →
      hasScheduleConflict store cids (parseLocalDateTime tz ds t) none = true →
      createInterview tz now yearLen lookC lookJ newId store input userId =
        (store, .error scheduleConflictError)) ∧
    (∀ (t2 : Int) (store : Store) (cid : String) (excl : Option String),
      (∀ iv ∈ store, iv.candidateId = some cid →
        31 * minuteMs ≤ |iv.scheduledDate - t2|) →
      hasScheduleConflict store cid t2 excl = false) := by
  refine ⟨?_, ?_, ?_⟩
  · intro store cid t excl
    exact (hasScheduleConflict_eq_true_iff store cid t excl).trans
      (exists_congr fun iv => and_congr_right fun _ =>
        conflictQueryPred_eq_true_iff cid t excl iv)
  · intro tz now yearLen lookC lookJ newId store input userId cids ds t
      hcid hne hdate htime hval href hconf
    have hne' : (cids == "") = false := by
      simp [hne]
    simp only [idString] at href
    simp only [createInterview, hval, validateReferences, hcid, hdate, htime,
      idString, Option.getD_some, href, jsTruthy, hne', Bool.not_false,
      RawDate.truthy, RawTime.truthy, Bool.and_self, Bool.and_true, Bool.true_and,
      hconf, if_true]
  · intro t2 store cid excl hfar
    by_contra h
    rw [Bool.not_eq_false] at h
    obtain ⟨iv, hm, hp⟩ := (hasScheduleConflict_eq_true_iff store cid t2 excl).mp h
    rw [conflictQueryPred_eq_true_iff] at hp
    have hbound := hfar iv hm hp.1
    rw [le_abs] at hbound
    obtain ⟨-, h1, h2, -⟩ := hp
    simp only [minuteMs] at h1 h2 hbound
    rcases hbound with hb | hb <;> omega

/-- C1 witness: with one stored interview for the candidate at exactly
the proposed instant, `createInterview` aborts with the conflict error
and leaves the store unchanged. -/
theorem c1_schedule_conflict_spec_witness :
    createInterview 0 nowA 365 (fun _ => some candA) (fun _ => some jobA)
      "eeeeeeeeeeeeeeeeeeeeeeee" [docA] goodInput none =
      ([docA], .error scheduleConflictError) :=
  c1_schedule_conflict_spec.2.1 0 nowA 365 (fun _ => some candA) (fun _ => some jobA)
    "eeeeeeeeeeeeeeeeeeeeeeee" [docA] goodInput none cidA ⟨20010⟩ ⟨10, 0⟩
    rfl (by decide) rfl rfl rfl rfl rfl

/-! ## C7: business-hours boundary times -/

/-- C7: with an otherwise valid date (strictly after today and within
the one-year window, so the date-only and combined-future checks pass),
date/time validation accepts 08:00 and 18:00 exactly and rejects 07:59
and 18:01 with the business-hours violation as the only reported
error. -/
theorem c7_boundary_times (tz now yearLen : Int) (ds : DateStr)
    (hfuture : localMidnight tz now + dayMs ≤ localMidnight tz (ds.days * dayMs))
    (hwindow : localMidnight tz (ds.days * dayMs) ≤ localMidnight tz (now + yearLen * dayMs)) :
    validateDateTimeConstraints tz now yearLen (.ok ds) (.ok ⟨8, 0⟩) = .ok () ∧
    validateDateTimeConstraints tz now yearLen (.ok ds) (.ok ⟨18, 0⟩) = .ok () ∧
    validateDateTimeConstraints tz now yearLen (.ok ds) (.ok ⟨7, 59⟩) =
      .error ⟨"Date and time validation failed",
        .fields [⟨"time", "Interview time must be between 08:00 and 18:00"⟩]⟩ ∧
    validateDateTimeConstraints tz now yearLen (.ok ds) (.ok ⟨18, 1⟩) =
      .error ⟨"Date and time validation failed",
        .fields [⟨"time", "Interview time must be between 08:00 and 18:00"⟩]⟩ := by
  have hmid : now - dayMs < localMidnight tz now := by
    simp only [localMidnight, dayMs, minuteMs]
    omega
  have hnotpast : ¬ (localMidnight tz (ds.days * dayMs) < localMidnight tz now) := by
    have hd : (0:Int) < dayMs := by norm_num [dayMs]
    intro hlt
    linarith [hfuture]
  have hcomb : ∀ h m : Nat, ¬ (setHoursLocal tz (ds.days * dayMs) h m ≤ now) := by
    intro h m
    have h1 : (0:Int) ≤ (h : Int) * 3600000 :=
      mul_nonneg (Int.natCast_nonneg h) (by norm_num)
    have h2 : (0:Int) ≤ (m : Int) * 60000 :=
      mul_nonneg (Int.natCast_nonneg m) (by norm_num)
    have hf := hfuture
    have hm := hmid
    simp only [setHoursLocal, localMidnight, hourMs, minuteMs, dayMs, not_le] at hf hm ⊢
    omega
  refine ⟨?_, ?_, ?_, ?_⟩ <;>
    simp [validateDateTimeConstraints, dateTimeErrors, hnotpast, not_lt.mp hnotpast,
      not_lt.mpr hwindow, hcomb 8 0, hcomb 18 0, hcomb 7 59, hcomb 18 1]

/-- C7 witness: at a concrete UTC+6 runtime clock and a concrete
future date, the four boundary times behave as stated. -/
theorem c7_boundary_times_witness :
    validateDateTimeConstraints 360 nowA 365 (.ok ⟨20010⟩) (.ok ⟨8, 0⟩) = .ok () ∧
    validateDateTimeConstraints 360 nowA 365 (.ok ⟨20010⟩) (.ok ⟨18, 0⟩) = .ok () ∧
    validateDateTimeConstraints 360 nowA 365 (.ok ⟨20010⟩) (.ok ⟨7, 59⟩) =
      .error ⟨"Date and time validation failed",
        .fields [⟨"time", "Interview time must be between 08:00 and 18:00"⟩]⟩ ∧
    validateDateTimeConstraints 360 nowA 365 (.ok ⟨20010⟩) (.ok ⟨18, 1⟩) =
      .error ⟨"Date and time validation failed",
        .fields [⟨"time", "Interview time must be between 08:00 and 18:00"⟩]⟩ :=
  c7_boundary_times 360 nowA 365 ⟨20010⟩ (by decide) (by decide)

/-! ## C3: validation error aggregation -/

/-- An input violating two independent rules at once: a malformed
candidate id (basic-info facet) and an out-of-window time 19:00
(date/time facet); every other field is valid. -/
def c3Input : RawInput where
  candidateId := some "not-an-objectid"
  candidateName := some "Alice Smith"
  jobId := some jidA
  jobTitle := some "Backend Engineer"
  type := some "technical"
  date := .ok ⟨20010⟩
  time := .ok ⟨19, 0⟩

/-- C3 counterexample: `c3Input` violates two independent rules
(malformed `candidateId` and a time outside business hours), yet
`validateInterviewData` raises the basic-info error whose field list
has exactly one entry — the date/time violation, shown non-empty in the
second conjunct, goes unreported. -/
theorem c3_counterexample :
    validateInterviewData 0 nowA 365 c3Input =
      .error ⟨"Interview basic information validation failed",
        .fields [⟨"candidateId", "Candidate ID must be a valid ObjectId"⟩]⟩ ∧
    dateTimeErrors 0 nowA 365 c3Input.date c3Input.time =
      [⟨"time", "Interview time must be between 08:00 and 18:00"⟩] :=
  ⟨rfl, rfl⟩

/-- C3 (amended): `validateInterviewData` checks its facets in the
order basic info, date/time, duration, interviewers, meeting details,
notes, status; every violation within one facet is aggregated and the
first failing facet raises its own complete `(field, message)` list
(the status facet raises a single-field error naming `status`), while
violations in later facets are not reported; when every facet is clean
the validation succeeds. -/
theorem c3_facet_aggregation (tz now yearLen : Int) (d : RawInput) :
    (basicInfoErrors d ≠ [] →
      validateInterviewData tz now yearLen d =
        .error ⟨"Interview basic information validation failed",
          .fields (basicInfoErrors d)⟩) ∧
    (basicInfoErrors d = [] →
      dateTimeErrors tz now yearLen d.date d.time ≠ [] →
      validateInterviewData tz now yearLen d =
        .error ⟨"Date and time validation failed",
          .fields (dateTimeErrors tz now yearLen d.date d.time)⟩) ∧
    (basicInfoErrors d = [] →
      dateTimeErrors tz now yearLen d.date d.time = [] →
      durationErrors d.duration ≠ [] →
      validateInterviewData tz now yearLen d =
        .error ⟨"Duration validation failed",
          .fields (durationErrors d.duration)⟩) ∧
    (basicInfoErrors d = [] →
      dateTimeErrors tz now yearLen d.date d.time = [] →
      durationErrors d.duration = [] →
      interviewersErrors d.interviewers ≠ [] →
      validateInterviewData tz now yearLen d =
        .error ⟨"Interviewers validation failed",
          .fields (interviewersErrors d.interviewers)⟩) ∧
    (basicInfoErrors d = [] →
      dateTimeErrors tz now yearLen d.date d.time = [] →
      durationErrors d.duration = [] →
      interviewersErrors d.interviewers = [] →
      meetingDetailsErrors d.meetingType d.meetingLink d.location ≠ [] →
      validateInterviewData tz now yearLen d =
        .error ⟨"Meeting details validation failed",
          .fields (meetingDetailsErrors d.meetingType d.meetingLink d.location)⟩) ∧
    (basicInfoErrors d = [] →
      dateTimeErrors tz now yearLen d.date d.time = [] →
      durationErrors d.duration = [] →
      interviewersErrors d.interviewers = [] →
      meetingDetailsErrors d.meetingType d.meetingLink d.location = [] →
      notesErrors d.notes ≠ [] →
      validateInterviewData tz now yearLen d =
        .error ⟨"Notes validation failed", .fields (notesErrors d.notes)⟩) ∧
    (basicInfoErrors d = [] →
      dateTimeErrors tz now yearLen d.date d.time = [] →
      durationErrors d.duration = [] →
      interviewersErrors d.interviewers = [] →
      meetingDetailsErrors d.meetingType d.meetingLink d.location = [] →
      notesErrors d.notes = [] →
      (jsTruthy d.status && !(INTERVIEW_STATUS.contains (d.status.getD ""))) = true →
      validateInterviewData tz now yearLen d =
        .error ⟨"Interview status must be one of: scheduled, completed, cancelled, rescheduled",
          .fieldName "status"⟩) ∧
    (basicInfoErrors d = [] →
      dateTimeErrors tz now yearLen d.date d.time = [] →
      durationErrors d.duration = [] →
      interviewersErrors d.interviewers = [] →
      meetingDetailsErrors d.meetingType d.meetingLink d.location = [] →
      notesErrors d.notes = [] →
      (jsTruthy d.status && !(INTERVIEW_STATUS.contains (d.status.getD ""))) = false →
      validateInterviewData tz now yearLen d = .ok ()) := by
  have hN : ∀ l : List FieldError, l ≠ [] → l.isEmpty = false := by
    intro l h
    rw [← Bool.not_eq_true, List.isEmpty_iff]
    exact h
  have hE : ∀ l : List FieldError, l = [] → l.isEmpty = true := by
    intro l h
    rw [List.isEmpty_iff]
    exact h
  refine ⟨?_, ?_, ?_, ?_, ?_, ?_, ?_, ?_⟩
  · intro h1
    simp [validateInterviewData, validateInterviewBasicInfo, hN _ h1,
      Bind.bind, Except.bind]
  · intro h1 h2
    simp [validateInterviewData, validateInterviewBasicInfo,
      validateDateTimeConstraints, hE _ h1, hN _ h2, Bind.bind, Except.bind]
  · intro h1 h2 h3
    simp [validateInterviewData, validateInterviewBasicInfo,
      validateDateTimeConstraints, validateInterviewDuration,
      hE _ h1, hE _ h2, hN _ h3, Bind.bind, Except.bind]
  · intro h1 h2 h3 h4
    simp [validateInterviewData, validateInterviewBasicInfo,
      validateDateTimeConstraints, validateInterviewDuration,
      validateInterviewers, hE _ h1, hE _ h2, hE _ h3, hN _ h4,
      Bind.bind, Except.bind]
  · intro h1 h2 h3 h4 h5
    simp [validateInterviewData, validateInterviewBasicInfo,
      validateDateTimeConstraints, validateInterviewDuration,
      validateInterviewers, validateMeetingDetails,
      hE _ h1, hE _ h2, hE _ h3, hE _ h4, hN _ h5, Bind.bind, Except.bind]
  · intro h1 h2 h3 h4 h5 h6
    simp [validateInterviewData, validateInterviewBasicInfo,
      validateDateTimeConstraints, validateInterviewDuration,
      validateInterviewers, validateMeetingDetails, validateInterviewNotes,
      hE _ h1, hE _ h2, hE _ h3, hE _ h4, hE _ h5, hN _ h6,
      Bind.bind, Except.bind]
  · intro h1 h2 h3 h4 h5 h6 h7
    have h7' : jsTruthy d.status = true ∧ d.status.getD "" ∉ INTERVIEW_STATUS := by
      simpa using h7
    simp [validateInterviewData, validateInterviewBasicInfo,
      validateDateTimeConstraints, validateInterviewDuration,
      validateInterviewers, validateMeetingDetails, validateInterviewNotes,
      validateInterviewStatusV, hE _ h1, hE _ h2, hE _ h3, hE _ h4, hE _ h5,
      hE _ h6, h7'.1, h7'.2, Bind.bind, Except.bind]
  · intro h1 h2 h3 h4 h5 h6 h7
    cases hjs : jsTruthy d.status with
    | false =>
      simp [validateInterviewData, validateInterviewBasicInfo,
        validateDateTimeConstraints, validateInterviewDuration,
        validateInterviewers, validateMeetingDetails, validateInterviewNotes,
        validateInterviewStatusV, hE _ h1, hE _ h2, hE _ h3, hE _ h4, hE _ h5,
        hE _ h6, hjs, Bind.bind, Except.bind]
    | true =>
      have hmem : d.status.getD "" ∈ INTERVIEW_STATUS := by
        rw [hjs] at h7
        simpa using h7
      simp [validateInterviewData, validateInterviewBasicInfo,
        validateDateTimeConstraints, validateInterviewDuration,
        validateInterviewers, validateMeetingDetails, validateInterviewNotes,
        validateInterviewStatusV, hE _ h1, hE _ h2, hE _ h3, hE _ h4, hE _ h5,
        hE _ h6, hjs, hmem, Bind.bind, Except.bind]

/-- C3 witness: the amended theorem applied at concrete inputs whose
first failing facet is basic info, date/time, duration and status
respectively, plus a fully valid input that succeeds. -/
theorem c3_facet_aggregation_witness :
    validateInterviewData 0 nowA 365 c3Input =
      .error ⟨"Interview basic information validation failed",
        .fields [⟨"candidateId", "Candidate ID must be a valid ObjectId"⟩]⟩ ∧
    validateInterviewData 0 nowA 365 { goodInput with time := .ok ⟨19, 0⟩ } =
      .error ⟨"Date and time validation failed",
        .fields [⟨"time", "Interview time must be between 08:00 and 18:00"⟩]⟩ ∧
    validateInterviewData 0 nowA 365 { goodInput with duration := some 13 } =
      .error ⟨"Duration validation failed",
        .fields [⟨"duration", "Interview duration must be at least 15 minutes"⟩]⟩ ∧
    validateInterviewData 0 nowA 365 { goodInput with status := some "archived" } =
      .error ⟨"Interview status must be one of: scheduled, completed, cancelled, rescheduled",
        .fieldName "status"⟩ ∧
    validateInterviewData 0 nowA 365 goodInput = .ok () :=
  ⟨(c3_facet_aggregation 0 nowA 365 c3Input).1 (by decide),
   (c3_facet_aggregation 0 nowA 365 { goodInput with time := .ok ⟨19, 0⟩ }).2.1
     (by decide) (by decide),
   (c3_facet_aggregation 0 nowA 365 { goodInput with duration := some 13 }).2.2.1
     (by decide) (by decide) (by decide),
   (c3_facet_aggregation 0 nowA 365
      { goodInput with status := some "archived" }).2.2.2.2.2.2.1
     (by decide) (by decide) (by decide) (by decide) (by decide) (by decide)
     (by decide),
   (c3_facet_aggregation 0 nowA 365 goodInput).2.2.2.2.2.2.2
     (by decide) (by decide) (by decide) (by decide) (by decide) (by decide)
     (by decide)⟩

/-! ## C4: date/time round trip through storage and display -/

/-- C4 counterexample: in a runtime west of UTC (offset −300 minutes,
UTC−5), the pair (day 20521, 10:00) is accepted by validation at the
clock `20500 * dayMs`, but `combineDateTime` followed by the display
formatting returns day 20520 — the previous calendar day — because
`new Date("YYYY-MM-DD")` parses at UTC midnight, `setHours` applies
local time, and `toISOString` reads the UTC day back. -/
theorem c4_counterexample :
    dateTimeErrors (-300) (20500 * dayMs) 365 (.ok ⟨20521⟩) (.ok ⟨10, 0⟩) = [] ∧
    combineDateTime (-300) (.ok ⟨20521⟩) (.ok ⟨10, 0⟩) =
      .ok (20520 * dayMs + 54000000) ∧
    (formatInterviewForDisplay (-300)
      { base := { docA with scheduledDate := 20520 * dayMs + 54000000 } }).date =
      ⟨20520⟩ ∧
    (⟨20520⟩ : DateStr) ≠ (⟨20521⟩ : DateStr) ∧
    (formatInterviewForDisplay (-300)
      { base := { docA with scheduledDate := 20520 * dayMs + 54000000 } }).time =
      ⟨10, 0⟩ :=
  ⟨by decide, rfl, by decide, by decide, by decide⟩

/-- C4 (amended): the time field and the duration string always round
trip.  For runtime offsets `tz` (minutes east of UTC, `|tz| < 1440`),
the date field round trips exactly when `0 ≤ tz ≤ M` or
`tz < 0 ∧ 1440 + tz ≤ M`, where `M` is the stored time's
minutes-of-day: every offset in `[UTC, UTC+8]` round trips all
validation-accepted (business-hours) times, while a west-of-UTC offset
shifts the displayed date one day back unless the wall-clock time is
late enough to wrap past local midnight in UTC (for example UTC−5 at
10:00 displays the previous day, but UTC−6 at 18:00 round trips). -/
theorem c4_round_trip :
    (∀ (tz : Int) (ds : DateStr) (t : TimeStr) (e : EnrichedInterview) (v : Int),
      t.hh ≤ 23 → t.mm ≤ 59 → -1440 < tz → tz < 1440 →
      combineDateTime tz (.ok ds) (.ok t) = .ok v →
      e.base.scheduledDate = v →
      ((formatInterviewForDisplay tz e).date = ds ↔
        ((0 ≤ tz ∧ tz ≤ 60 * (t.hh : Int) + (t.mm : Int)) ∨
         (tz < 0 ∧ 1440 + tz ≤ 60 * (t.hh : Int) + (t.mm : Int)))) ∧
      (formatInterviewForDisplay tz e).time = t) ∧
    (∀ (tz : Int) (e : EnrichedInterview),
      (formatInterviewForDisplay tz e).duration =
        toString e.base.duration ++ " minutes") := by
  constructor
  · intro tz ds t e v hh23 hm59 htzl htzr hcomb hbase
    obtain ⟨dd⟩ := ds
    obtain ⟨hh, mm⟩ := t
    rw [combineDateTime] at hcomb
    split at hcomb
    · exact absurd hcomb (by simp)
    · injection hcomb with hv
      constructor
      · have hshow : (formatInterviewForDisplay tz e).date =
            formatDatePart e.base.scheduledDate := rfl
        rw [hshow, hbase, ← hv]
        simp only [formatDatePart, setHoursLocal, localMidnight, dayMs, hourMs,
          minuteMs, DateStr.mk.injEq] at *
        omega
      · show formatTimePart tz e.base.scheduledDate = _
        rw [hbase, ← hv]
        simp only [formatTimePart, setHoursLocal, localMidnight, dayMs, hourMs,
          minuteMs, TimeStr.mk.injEq] at *
        omega
  · intro tz e
    rfl

/-- C4 witness: in a UTC+6 runtime, (day 20521, 10:00) stored through
`combineDateTime` displays back as exactly day 20521, 10:00; and in a
UTC−6 runtime the late pair (day 20010, 18:00) also round trips — the
second arm of the iff. -/
theorem c4_round_trip_witness :
    ((formatInterviewForDisplay 360
      { base := { docA with scheduledDate := 1773028800000 } }).date = ⟨20521⟩ ∧
     (formatInterviewForDisplay 360
      { base := { docA with scheduledDate := 1773028800000 } }).time = ⟨10, 0⟩) ∧
    (formatInterviewForDisplay (-360)
      { base := { docA with scheduledDate := 1728864000000 } }).date = ⟨20010⟩ :=
  have h1 := c4_round_trip.1 360 ⟨20521⟩ ⟨10, 0⟩
    { base := { docA with scheduledDate := 1773028800000 } }
    (setHoursLocal 360 (20521 * dayMs) 10 0)
    (by decide) (by decide) (by decide) (by decide) rfl (by decide)
  have h2 := c4_round_trip.1 (-360) ⟨20010⟩ ⟨18, 0⟩
    { base := { docA with scheduledDate := 1728864000000 } }
    (setHoursLocal (-360) (20010 * dayMs) 18 0)
    (by decide) (by decide) (by decide) (by decide) rfl (by decide)
  ⟨⟨h1.1.mpr (Or.inl (by decide)), h1.2⟩, h2.1.mpr (Or.inr (by decide))⟩

/-! ## C5: daily statistics -/

theorem insertBySchedule_perm (x : Interview) (l : List Interview) :
    (insertBySchedule x l).Perm (x :: l) := by
  induction l with
  | nil => simp [insertBySchedule]
  | cons y rest ih =>
    rw [insertBySchedule]
    split
    · exact List.Perm.refl _
    · exact (List.Perm.cons y ih).trans (List.Perm.swap x y rest)

theorem sortBySchedule_perm (l : List Interview) : (sortBySchedule l).Perm l := by
  induction l with
  | nil => simp [sortBySchedule]
  | cons x rest ih =>
    rw [sortBySchedule]
    exact (insertBySchedule_perm x (sortBySchedule rest)).trans (List.Perm.cons x ih)

/-- The pool of documents the stats claim describes, read directly off
the store: active documents whose `scheduledDate` lies in the local
calendar day, restricted to status `scheduled`/`rescheduled`. -/
def statsPool (tz : Int) (store : Store) (date : Int) : List Interview :=
  (store.filter (fun iv =>
    decide (localMidnight tz date ≤ iv.scheduledDate) &&
    decide (iv.scheduledDate ≤ localMidnight tz date + dayMs - 1) &&
    iv.metadata.isActive)).filter (fun iv =>
      iv.status == "scheduled" || iv.status == "rescheduled")

/-- An active, scheduled interview carrying the unrecognized type
`"bogus"`, as produced by an update patch (updates skip
`validateInterviewData`). -/
def bogusDoc : Interview :=
  { docA with type := "bogus",
              metadata := { docA.metadata with updatedAt := nowA } }

/-- C5 counterexample: an unrecognized interview type is not excluded
from the histogram — it is counted under its own key.  The first
conjunct shows such a document is reachable through the service itself:
updating `docA` with `type = "bogus"` is accepted and stores it. -/
theorem c5_counterexample :
    (updateInterview 0 nowA (fun _ => some candA) (fun _ => some jobA)
      [docA] "aaaaaaaaaaaaaaaaaaaaaaaa" { type := some "bogus" } none).1 =
      [bogusDoc] ∧
    (getInterviewStats 0 [bogusDoc] (20010 * dayMs)).interviewsByType "bogus" = 1 ∧
    (getInterviewStats 0 [bogusDoc] (20010 * dayMs)).totalInterviews = 1 ∧
    INTERVIEW_TYPES.contains "bogus" = false :=
  ⟨rfl, rfl, rfl, by decide⟩

/-- C5 (amended): `getInterviewStats` considers exactly the active
interviews of the local calendar day with status scheduled or
rescheduled (`totalInterviews` is their number), and its
`interviewsByType` histogram counts every one of them under its raw
`type` value — unrecognized or garbage type values are counted under
their own keys, not excluded. -/
theorem c5_stats_histogram (tz : Int) (store : Store) (date : Int) :
    (getInterviewStats tz store date).totalInterviews =
      (statsPool tz store date).length ∧
    (∀ ty : String, (getInterviewStats tz store date).interviewsByType ty =
      ((statsPool tz store date).filter (fun iv => iv.type == ty)).length) := by
  have hperm : (getInterviewsForDate tz store date).Perm
      (store.filter (fun iv =>
        decide (localMidnight tz date ≤ iv.scheduledDate) &&
        decide (iv.scheduledDate ≤ localMidnight tz date + dayMs - 1) &&
        iv.metadata.isActive)) := by
    rw [getInterviewsForDate]
    exact sortBySchedule_perm _
  have hpool : ((getInterviewsForDate tz store date).filter (fun iv =>
      iv.status == "scheduled" || iv.status == "rescheduled")).Perm
      (statsPool tz store date) := by
    rw [statsPool]
    exact hperm.filter _
  constructor
  · exact hpool.length_eq
  · intro ty
    exact (hpool.filter (fun iv => iv.type == ty)).length_eq

/-- C5 witness: on a two-document store with one technical and one
cancelled interview on the day, the stats count only the scheduled one
and its type key. -/
theorem c5_stats_histogram_witness :
    (getInterviewStats 0 [bogusDoc, { docA with status := "cancelled" }]
      (20010 * dayMs)).totalInterviews = 1 ∧
    (getInterviewStats 0 [bogusDoc, { docA with status := "cancelled" }]
      (20010 * dayMs)).interviewsByType "bogus" = 1 :=
  ⟨((c5_stats_histogram 0 [bogusDoc, { docA with status := "cancelled" }]
      (20010 * dayMs)).1).trans (by decide),
   ((c5_stats_histogram 0 [bogusDoc, { docA with status := "cancelled" }]
      (20010 * dayMs)).2 "bogus").trans (by decide)⟩

/-! ## C6: soft-deleted interviews are treated as absent -/

/-- The active-only restriction of a store. -/
def activeOnly (store : Store) : Store :=
  store.filter (fun iv => iv.metadata.isActive)

theorem filter_filter_subpred {p q : Interview → Bool}
    (h : ∀ a, p a = true → q a = true) :
    ∀ l : Store, (l.filter q).filter p = l.filter p := by
  intro l
  induction l with
  | nil => rfl
  | cons x rest ih =>
    cases hq : q x with
    | true =>
      cases hp : p x with
      | true => simp [List.filter_cons, hp, hq, ih]
      | false => simp [List.filter_cons, hp, hq, ih]
    | false =>
      have hp : p x = false := by
        cases hpx : p x
        · rfl
        · exact absurd (h x hpx) (by simp [hq])
      simp [List.filter_cons, hp, hq, ih]

/-- C6: a soft-deleted interview (`metadata.isActive = false`) is
absent from every operation: `getInterviewById` returns null when every
document with the id is inactive; the list query only ever returns
active documents; the conflict check and the per-day query behave
exactly as on the store with inactive documents removed (so do the
statistics); and `deleteInterview` on an id whose documents are all
inactive fails with the not-found error (status 404) instead of a
second success. -/
theorem c6_soft_delete_absent :
    (∀ (tz : Int) (lookC : String → Option Candidate) (lookJ : String → Option Job)
       (store : Store) (id : String),
      isValidObjectId id = true →
      (∀ iv ∈ store, iv._id = id → iv.metadata.isActive = false) →
      getInterviewById tz lookC lookJ store id = .ok none) ∧
    (∀ (tz : Int) (store : Store) (f : InterviewFilters) (skip limit : Nat)
       (iv : Interview),
      iv ∈ getAllInterviewsDocs tz store f skip limit →
      iv.metadata.isActive = true) ∧
    (∀ (store : Store) (cid : String) (t : Int) (excl : Option String),
      hasScheduleConflict store cid t excl =
        hasScheduleConflict (activeOnly store) cid t excl) ∧
    (∀ (tz : Int) (store : Store) (date : Int),
      getInterviewsForDate tz store date =
        getInterviewsForDate tz (activeOnly store) date) ∧
    (∀ (tz : Int) (store : Store) (date : Int),
      getInterviewStats tz store date =
        getInterviewStats tz (activeOnly store) date) ∧
    (∀ (now : Int) (store : Store) (id : String) (userId : Option String),
      isValidObjectId id = true →
      (∀ iv ∈ store, iv._id = id → iv.metadata.isActive = false) →
      deleteInterview now store id userId = (store, .error notFoundError)) := by
  have hfind : ∀ (store : Store) (id : String),
      (∀ iv ∈ store, iv._id = id → iv.metadata.isActive = false) →
      store.find? (fun iv => iv._id == id && iv.metadata.isActive) = none := by
    intro store id hdead
    apply List.find?_eq_none.mpr
    intro iv hm
    by_cases hid : iv._id = id
    · simp [hid, hdead iv hm hid]
    · simp [hid]
  have hconf : ∀ (store : Store) (cid : String) (t : Int) (excl : Option String),
      hasScheduleConflict store cid t excl =
        hasScheduleConflict (activeOnly store) cid t excl := by
    intro store cid t excl
    have hsub : ∀ a, conflictQueryPred cid t excl a = true →
        (fun iv => iv.metadata.isActive) a = true := by
      intro a ha
      exact ((conflictQueryPred_eq_true_iff cid t excl a).mp ha).2.2.2.2.1
    rw [hasScheduleConflict, hasScheduleConflict, activeOnly,
      filter_filter_subpred hsub]
  have hday : ∀ (tz : Int) (store : Store) (date : Int),
      getInterviewsForDate tz store date =
        getInterviewsForDate tz (activeOnly store) date := by
    intro tz store date
    have hsub : ∀ a : Interview,
        (decide (localMidnight tz date ≤ a.scheduledDate) &&
         decide (a.scheduledDate ≤ localMidnight tz date + dayMs - 1) &&
         a.metadata.isActive) = true →
        (fun iv => iv.metadata.isActive) a = true := by
      intro a ha
      simp only [Bool.and_eq_true] at ha
      exact ha.2
    rw [getInterviewsForDate, getInterviewsForDate, activeOnly,
      filter_filter_subpred hsub]
  refine ⟨?_, ?_, hconf, hday, ?_, ?_⟩
  · intro tz lookC lookJ store id hvalid hdead
    simp [getInterviewById, hvalid, hfind store id hdead]
  · intro tz store f skip limit iv hm
    rw [getAllInterviewsDocs] at hm
    have h1 : iv ∈ sortBySchedule (store.filter (listQueryPred tz f)) :=
      List.drop_subset _ _ (List.take_subset _ _ hm)
    have h2 : iv ∈ store.filter (listQueryPred tz f) :=
      (sortBySchedule_perm _).mem_iff.mp h1
    have h3 := List.of_mem_filter h2
    simp only [listQueryPred, Bool.and_eq_true] at h3
    exact h3.1.1.1.1.1.1
  · intro tz store date
    rw [getInterviewStats, getInterviewStats, hday]
  · intro now store id userId hvalid hdead
    simp [deleteInterview, hvalid, hfind store id hdead]

/-- A soft-deleted copy of `docA`. -/
def deadDoc : Interview :=
  { docA with metadata := { docA.metadata with isActive := false } }

/-- C6 witness: on a store holding only the soft-deleted `deadDoc`,
`getInterviewById` returns null and `deleteInterview` reports
not-found. -/
theorem c6_soft_delete_absent_witness :
    getInterviewById 0 (fun _ => some candA) (fun _ => some jobA) [deadDoc]
      "aaaaaaaaaaaaaaaaaaaaaaaa" = .ok none ∧
    deleteInterview nowA [deadDoc] "aaaaaaaaaaaaaaaaaaaaaaaa" none =
      ([deadDoc], .error notFoundError) :=
  ⟨c6_soft_delete_absent.1 0 (fun _ => some candA) (fun _ => some jobA) [deadDoc]
      "aaaaaaaaaaaaaaaaaaaaaaaa" (by decide) (by decide),
   c6_soft_delete_absent.2.2.2.2.2 nowA [deadDoc] "aaaaaaaaaaaaaaaaaaaaaaaa" none
      (by decide) (by decide)⟩

/-! ## C8: referential-integrity validation at creation -/

/-- C8 counterexample: with both references missing, the local errors
array does collect both messages, but the error the service raises is
the fixed `invalidReferencesError` — byte-for-byte identical to the
error raised when only the candidate is missing, and carrying neither
missing-reference message: the raised error aggregates nothing. -/
theorem c8_counterexample :
    referenceErrors (fun _ => none) (fun _ => none) cidA jidA =
      [⟨"candidateId", "Referenced candidate does not exist"⟩,
       ⟨"jobId", "Referenced job does not exist"⟩] ∧
    validateReferences (fun _ => none) (fun _ => none) cidA jidA =
      .error invalidReferencesError ∧
    validateReferences (fun _ => none) (fun _ => some jobA) cidA jidA =
      .error invalidReferencesError ∧
    invalidReferencesError.message = "Referential integrity validation failed" :=
  ⟨rfl, rfl, rfl, rfl⟩

/-- C8 (amended): both lookups always run — the internal errors list
holds one entry per missing reference and both entries when both are
missing (no fail-fast) — and any missing reference makes the create
fail with the referential-integrity error (code `INVALID_REFERENCES`,
status 400); the raised error itself carries only the fixed message,
not the individual missing-reference messages. -/
theorem c8_reference_validation (lookC : String → Option Candidate)
    (lookJ : String → Option Job) (cid jid : String) :
    (lookC cid = none → lookJ jid = none →
      referenceErrors lookC lookJ cid jid =
        [⟨"candidateId", "Referenced candidate does not exist"⟩,
         ⟨"jobId", "Referenced job does not exist"⟩]) ∧
    ((lookC cid = none ∨ lookJ jid = none) →
      validateReferences lookC lookJ cid jid = .error invalidReferencesError) ∧
    (∀ c j, lookC cid = some c → lookJ jid = some j →
      validateReferences lookC lookJ cid jid = .ok (some c, some j)) ∧
    (invalidReferencesError.code = "INVALID_REFERENCES" ∧
     invalidReferencesError.statusCode = 400) ∧
    (∀ (tz now yearLen : Int) (newId : String) (store : Store) (input : RawInput)
       (userId : Option String),
      validateInterviewData tz now yearLen (sanitizeInterviewInput input) = .ok () →
      cid = idString (sanitizeInterviewInput input).candidateId →
      jid = idString (sanitizeInterviewInput input).jobId →
      (lookC cid = none ∨ lookJ jid = none) →
      createInterview tz now yearLen lookC lookJ newId store input userId =
        (store, .error invalidReferencesError)) := by
  have hempty : (lookC cid = none ∨ lookJ jid = none) →
      (referenceErrors lookC lookJ cid jid).isEmpty = false := by
    intro h
    rcases h with h | h
    · simp [referenceErrors, h]
    · cases hc : lookC cid <;> simp [referenceErrors, h, hc]
  refine ⟨?_, ?_, ?_, ⟨rfl, rfl⟩, ?_⟩
  · intro h1 h2
    simp [referenceErrors, h1, h2]
  · intro h
    simp [validateReferences, hempty h]
  · intro c j h1 h2
    simp [validateReferences, referenceErrors, h1, h2]
  · intro tz now yearLen newId store input userId hval hcid hjid h
    subst hcid
    subst hjid
    simp [createInterview, hval, validateReferences, hempty h]

/-- C8 witness: a missing candidate alone rejects the create of
`goodInput` with the referential-integrity error, while resolvable
references validate to the pair of records. -/
theorem c8_reference_validation_witness :
    createInterview 0 nowA 365 (fun _ => none) (fun _ => some jobA)
      "eeeeeeeeeeeeeeeeeeeeeeee" [] goodInput none =
      ([], .error invalidReferencesError) ∧
    validateReferences (fun _ => some candA) (fun _ => some jobA) cidA jidA =
      .ok (some candA, some jobA) :=
  ⟨(c8_reference_validation (fun _ => none) (fun _ => some jobA) cidA jidA).2.2.2.2
      0 nowA 365 "eeeeeeeeeeeeeeeeeeeeeeee" [] goodInput none rfl rfl rfl
      (Or.inl rfl),
   (c8_reference_validation (fun _ => some candA) (fun _ => some jobA) cidA
      jidA).2.2.1 candA jobA rfl rfl⟩

/-! ## C9: conflict re-check on update -/

theorem getInterviewById_ok (tz : Int) (lookC : String → Option Candidate)
    (lookJ : String → Option Job) (store : Store) (id : String)
    (h : isValidObjectId id = true) :
    getInterviewById tz lookC lookJ store id =
      .ok ((store.find? (fun iv => iv._id == id && iv.metadata.isActive)).map
        (fun iv => formatInterviewForDisplay tz (enrichInterviewData lookC lookJ iv))) := by
  simp only [getInterviewById, h, Bool.not_true, Bool.false_eq_true, if_false]
  cases store.find? (fun iv => iv._id == id && iv.metadata.isActive) <;> rfl

/-- A second stored interview for the same candidate, 14:00 the same
day. -/
def docB : Interview :=
  { docA with _id := "bbbbbbbbbbbbbbbbbbbbbbbb",
              scheduledDate := 20010 * dayMs + 14 * hourMs }

/-- `docB` after the schedule-only update patch of the C9
counterexample. -/
def docBupd : Interview :=
  { docB with scheduledDate := 20010 * dayMs + 10 * hourMs + 10 * minuteMs,
              metadata := { docB.metadata with updatedAt := nowA } }

/-- C9 counterexample: a patch carrying a new date and time but no
candidate id changes the stored schedule of `docB` to 10:10 — ten
minutes from `docA`'s 10:00 slot for the same candidate — and the
update succeeds without any conflict check, although the conflict
query itself (third conjunct) flags that very instant. -/
theorem c9_counterexample :
    updateInterview 0 nowA (fun _ => some candA) (fun _ => some jobA)
      [docA, docB] "bbbbbbbbbbbbbbbbbbbbbbbb"
      { date := .ok ⟨20010⟩, time := .ok ⟨10, 10⟩ } none =
      ([docA, docBupd], .ok (formatInterviewForDisplay 0 { base := docBupd })) ∧
    docBupd.scheduledDate - docA.scheduledDate = 10 * minuteMs ∧
    hasScheduleConflict [docA, docB] cidA docBupd.scheduledDate
      (some "bbbbbbbbbbbbbbbbbbbbbbbb") = true :=
  ⟨rfl, by decide, by decide⟩

/-- C9 (amended): the update conflict check runs exactly when the
sanitized patch has a truthy `candidateId` and at least one truthy
`date`/`time` field.  When it runs, it checks the patch date/time
merged over the existing record's display values, excluding the
interview being updated, and a detected conflict aborts the update with
the schedule-conflict error.  When the patch lacks a truthy
`candidateId` — even if it changes the stored schedule, as the
counterexample shows — or touches neither `date` nor `time`, the
conflict error is never raised.  Every successful update sets
`metadata.updatedAt` to the update clock. -/
theorem c9_update_conflict_gate :
    (∀ (tz now : Int) (lookC : String → Option Candidate)
       (lookJ : String → Option Job) (store : Store) (id : String)
       (updates : RawInput) (userId : Option String) (ex : DisplayInterview)
       (sd : Int),
      isValidObjectId id = true →
      getInterviewById tz lookC lookJ store id = .ok (some ex) →
      ((sanitizeInterviewInput updates).date.truthy ||
        (sanitizeInterviewInput updates).time.truthy) = true →
      jsTruthy (sanitizeInterviewInput updates).candidateId = true →
      mergedScheduleParse tz (sanitizeInterviewInput updates).date
        (sanitizeInterviewInput updates).time ex.date ex.time = some sd →
      hasScheduleConflict store
        (idString (sanitizeInterviewInput updates).candidateId) sd (some id) = true →
      updateInterview tz now lookC lookJ store id updates userId =
        (store, .error scheduleConflictError)) ∧
    (∀ (tz now : Int) (lookC : String → Option Candidate)
       (lookJ : String → Option Job) (store : Store) (id : String)
       (updates : RawInput) (userId : Option String),
      (jsTruthy (sanitizeInterviewInput updates).candidateId = false ∨
        ((sanitizeInterviewInput updates).date.truthy ||
         (sanitizeInterviewInput updates).time.truthy) = false) →
      (updateInterview tz now lookC lookJ store id updates userId).2 ≠
        .error scheduleConflictError) ∧
    (∀ (tz now : Int) (lookC : String → Option Candidate)
       (lookJ : String → Option Job) (store : Store) (id : String)
       (updates : RawInput) (userId : Option String) (d : DisplayInterview),
      (updateInterview tz now lookC lookJ store id updates userId).2 = .ok d →
      d.updatedAt = now) := by
  refine ⟨?_, ?_, ?_⟩
  · intro tz now lookC lookJ store id updates userId ex sd
      hvalid hget hdt hcand hmerge hconf
    simp only [updateInterview, hvalid, Bool.not_true, Bool.false_eq_true, if_false,
      hget, hdt, hcand, Bool.and_self, Bool.true_and, Bool.and_true, hmerge, hconf,
      if_true]
  · intro tz now lookC lookJ store id updates userId hoff
    cases hvalid : isValidObjectId id with
    | false =>
      simp only [updateInterview, hvalid, Bool.not_false, if_true]
      simp [invalidIdError, scheduleConflictError]
    | true =>
      rw [updateInterview]
      simp only [hvalid, Bool.not_true, Bool.false_eq_true, if_false,
        getInterviewById_ok tz lookC lookJ store id hvalid]
      cases store.find? (fun iv => iv._id == id && iv.metadata.isActive) with
      | none =>
        simp [notFoundError, scheduleConflictError]
      | some ex =>
        have hcond : (((sanitizeInterviewInput updates).date.truthy ||
            (sanitizeInterviewInput updates).time.truthy) &&
            jsTruthy (sanitizeInterviewInput updates).candidateId) = false := by
          rcases hoff with h | h <;> simp [h]
        simp only [Option.map_some, hcond, Bool.false_eq_true, if_false]
        cases store.find? (fun iv => iv._id == id && iv.metadata.isActive) with
        | none => simp [scheduleConflictError]
        | some target => simp [scheduleConflictError]
  · intro tz now lookC lookJ store id updates userId d h
    rw [updateInterview] at h
    cases hvalid : isValidObjectId id with
    | false => simp [hvalid] at h
    | true =>
      rw [getInterviewById_ok tz lookC lookJ store id hvalid] at h
      simp only [hvalid, Bool.not_true, Bool.false_eq_true, if_false] at h
      cases hfind : store.find? (fun iv => iv._id == id && iv.metadata.isActive) with
      | none => rw [hfind] at h; simp at h
      | some target =>
        rw [hfind] at h
        simp only [Option.map_some'] at h
        split at h
        · split at h
          · simp at h
          · simp only [Except.ok.injEq] at h
            subst h
            rfl
        · simp only [Bool.false_eq_true, if_false, Except.ok.injEq] at h
          subst h
          rfl

/-- C9 witness: a patch carrying a candidate id and a new time whose
merged instant is ten minutes from `docA`'s slot aborts the update of
`docB` with the schedule-conflict error, leaving the store unchanged. -/
theorem c9_update_conflict_gate_witness :
    updateInterview 0 nowA (fun _ => some candA) (fun _ => some jobA)
      [docA, docB] "bbbbbbbbbbbbbbbbbbbbbbbb"
      { candidateId := some cidA, time := .ok ⟨10, 10⟩ } none =
      ([docA, docB], .error scheduleConflictError) :=
  c9_update_conflict_gate.1 0 nowA (fun _ => some candA) (fun _ => some jobA)
    [docA, docB] "bbbbbbbbbbbbbbbbbbbbbbbb"
    { candidateId := some cidA, time := .ok ⟨10, 10⟩ } none
    (formatInterviewForDisplay 0
      (enrichInterviewData (fun _ => some candA) (fun _ => some jobA) docB))
    (20010 * dayMs + 10 * hourMs + 10 * minuteMs)
    (by decide) rfl (by decide) (by decide) (by decide) (by decide)

/-! ## C10: update frame conditions -/

theorem updateFirst_map_eq {α : Type} {g : Interview → α} {p : Interview → Bool}
    {f : Interview → Interview} (h : ∀ iv, p iv = true → g (f iv) = g iv) :
    ∀ l : Store, (updateFirst p f l).map g = l.map g := by
  intro l
  induction l with
  | nil => rfl
  | cons x rest ih =>
    rw [updateFirst]
    cases hp : p x with
    | true => simp [List.map_cons, h x hp]
    | false => simp [List.map_cons, ih]

/-- C10: no update patch ever modifies the stored `candidateId`,
`jobId` or `duration` of any document, and the stored `scheduledDate`
of every document is unchanged unless the patch carries both a truthy
`date` and a truthy `time` — in particular a patch supplying only one
of the two leaves every `scheduledDate` as it was, even when a conflict
check ran against the merged date/time. -/
theorem c10_update_frame (tz now : Int) (lookC : String → Option Candidate)
    (lookJ : String → Option Job) (store : Store) (id : String)
    (updates : RawInput) (userId : Option String) :
    ((updateInterview tz now lookC lookJ store id updates userId).1.map
        (fun iv => (iv.candidateId, iv.jobId, iv.duration)) =
      store.map (fun iv => (iv.candidateId, iv.jobId, iv.duration))) ∧
    ((updates.date.truthy && updates.time.truthy) = false →
      (updateInterview tz now lookC lookJ store id updates userId).1.map
        (fun iv => iv.scheduledDate) = store.map (fun iv => iv.scheduledDate)) := by
  have frame : ∀ {α : Type} (g : Interview → α),
      (∀ ex iv, g (applyUpdateDoc tz now (sanitizeInterviewInput updates) ex iv) = g iv) →
      (updateInterview tz now lookC lookJ store id updates userId).1.map g =
        store.map g := by
    intro α g hg
    rw [updateInterview]
    cases hvalid : isValidObjectId id with
    | false => simp
    | true =>
      rw [getInterviewById_ok tz lookC lookJ store id hvalid]
      simp only [Bool.not_true, Bool.false_eq_true, if_false]
      cases hfind : store.find? (fun iv => iv._id == id && iv.metadata.isActive) with
      | none => rfl
      | some target =>
        simp only [Option.map_some']
        split
        · split
          · rfl
          · exact updateFirst_map_eq (fun iv _ => hg _ iv) store
        · simp only [Bool.false_eq_true, if_false]
          exact updateFirst_map_eq (fun iv _ => hg _ iv) store
  constructor
  · exact frame (fun iv => (iv.candidateId, iv.jobId, iv.duration)) (fun ex iv => rfl)
  · intro hno
    have hno' : ((sanitizeInterviewInput updates).date.truthy &&
        (sanitizeInterviewInput updates).time.truthy) = false := hno
    refine frame (fun iv => iv.scheduledDate) (fun ex iv => ?_)
    simp [applyUpdateDoc, hno']

/-- C10 witness: a date-only patch (no time) on `docB` leaves every
stored `candidateId`/`jobId`/`duration` and every `scheduledDate`
unchanged. -/
theorem c10_update_frame_witness :
    ((updateInterview 0 nowA (fun _ => some candA) (fun _ => some jobA)
        [docA, docB] "bbbbbbbbbbbbbbbbbbbbbbbb"
        { date := .ok ⟨20011⟩ } none).1.map
      (fun iv => (iv.candidateId, iv.jobId, iv.duration)) =
        [docA, docB].map (fun iv => (iv.candidateId, iv.jobId, iv.duration))) ∧
    ((updateInterview 0 nowA (fun _ => some candA) (fun _ => some jobA)
        [docA, docB] "bbbbbbbbbbbbbbbbbbbbbbbb"
        { date := .ok ⟨20011⟩ } none).1.map (fun iv => iv.scheduledDate) =
      [docA, docB].map (fun iv => iv.scheduledDate)) :=
  ⟨(c10_update_frame 0 nowA (fun _ => some candA) (fun _ => some jobA)
      [docA, docB] "bbbbbbbbbbbbbbbbbbbbbbbb" { date := .ok ⟨20011⟩ } none).1,
   (c10_update_frame 0 nowA (fun _ => some candA) (fun _ => some jobA)
      [docA, docB] "bbbbbbbbbbbbbbbbbbbbbbbb" { date := .ok ⟨20011⟩ } none).2
     (by decide)⟩

/-! ## C2: reads after the referenced candidate is deleted -/

/-- C2 (code evaluated at the failing input): after the candidate of
`docA` is deleted (its lookup returns null), `_enrichInterviewData`
does set `candidateDeleted = true` and `currentCandidateInfo = null`
on the enriched record without touching the stored fields, and the
read still succeeds — but `formatInterviewForDisplay` rebuilds the
returned object from the stored fields only, so the object
`getInterviewById` returns carries neither `candidateDeleted` nor
`currentCandidateInfo` (both absent, JS `undefined`), and is identical
to the object a read before the deletion returned. -/
theorem c2_enrichment_flags_dropped :
    (enrichInterviewData (fun _ => none) (fun _ => some jobA) docA).candidateDeleted =
      some true ∧
    (enrichInterviewData (fun _ => none) (fun _ => some jobA) docA).currentCandidateInfo =
      some none ∧
    (enrichInterviewData (fun _ => none) (fun _ => some jobA) docA).base = docA ∧
    getInterviewById 0 (fun _ => none) (fun _ => some jobA) [docA]
      "aaaaaaaaaaaaaaaaaaaaaaaa" =
      .ok (some (formatInterviewForDisplay 0
        (enrichInterviewData (fun _ => none) (fun _ => some jobA) docA))) ∧
    (∀ (tz : Int) (e : EnrichedInterview),
      (formatInterviewForDisplay tz e).candidateDeleted = none ∧
      (formatInterviewForDisplay tz e).currentCandidateInfo = none) ∧
    getInterviewById 0 (fun _ => none) (fun _ => some jobA) [docA]
        "aaaaaaaaaaaaaaaaaaaaaaaa" =
      getInterviewById 0 (fun _ => some candA) (fun _ => some jobA) [docA]
        "aaaaaaaaaaaaaaaaaaaaaaaa" :=
  ⟨rfl, rfl, rfl, rfl, fun _ _ => ⟨rfl, rfl⟩, rfl⟩

end NexusATS
